import Mathlib

/-!
Shallow embedding of the HariBookStore payment backend: the payment document
schema (src/models/payment.model.js), the order controller operations
(src/controller/otp.controller.js: createOrder, confirmOrder,
updateOrderStatus) and the deferred email scheduler
(services/emailScheduler.service.js: checkAndSendEmails, sendStatusEmail).
Timestamps are integer milliseconds since the epoch; optional HTTP body
fields are Option-valued; email sends are recorded as attempted Email
values, and transporter failures are threaded as Bool oracles because the
source swallows every transporter error in a try/catch inside the template
sender before control returns to the caller.
-/

/-- The kind of email a code path attempts to send. -/
inductive EmailKind where
  | adminNewOrder
  | customerOrderReceived
  | orderConfirmed
  | orderCancelled
  | statusUpdate (status : String)
  deriving DecidableEq, Repr

/-- An attempted email send: recipient address and which template. -/
structure Email where
  recipient : String
  kind : EmailKind
  deriving DecidableEq, Repr

/-- One order document of the Payment collection (payment.model.js),
with the nested address, bookDetails and payment subdocuments flattened. -/
structure Payment where
  customerName : String
  customerEmail : String
  mobile : String
  village : String
  district : String
  pincode : String
  state : String
  bookCode : String
  bookName : String
  price : Int
  utr : String
  amount : Int
  upiId : String
  verificationStatus : String
  orderStatus : String
  adminNotes : String
  createdAt : Int
  confirmedDate : Option Int
  shippedDate : Option Int
  deliveredDate : Option Int
  emailSent : Bool
  emailSentDate : Option Int
  deriving DecidableEq, Repr

/-- A Book catalog row, as used by Book.findOne on bookcode. -/
structure Book where
  bookcode : String
  name : String
  deriving DecidableEq, Repr

/-- JavaScript `v || d` on an optional string field: absent or empty (falsy)
falls back to the default. -/
def strOr (v : Option String) (d : String) : String :=
  match v with
  | none => d
  | some s => if s = "" then d else s

/-- confirmOrder (otp.controller.js:360): the admin Decide operation on one
order. Returns the updated document and the synchronously attempted emails
(sendOrderConfirmedEmail / sendOrderCancelledEmail both swallow transporter
errors internally, so the attempt happens on every call). -/
def confirmOrder (now : Int) (verificationStatus : Option String)
    (adminNotes : Option String) (o : Payment) : Payment × List Email :=
  let o2 := { o with
    verificationStatus := strOr verificationStatus "verified"
    orderStatus := if verificationStatus = some "verified" then "confirmed" else "cancelled"
    confirmedDate := if verificationStatus = some "verified" then some now else none
    adminNotes := strOr adminNotes "" }
  let emails :=
    if verificationStatus = some "verified" then
      [⟨o2.customerEmail, EmailKind.orderConfirmed⟩]
    else
      [⟨o2.customerEmail, EmailKind.orderCancelled⟩]
  (o2, emails)

/-- The validStatuses list of updateOrderStatus (otp.controller.js:409). -/
def validStatuses : List String :=
  ["pending", "confirmed", "processing", "shipped", "delivered", "cancelled"]

/-- The field writes of updateOrderStatus (otp.controller.js:425): set the
status, keep old notes when the body's notes are falsy, and stamp
shippedDate / deliveredDate only when still unset. -/
def applyStatusUpdate (now : Int) (status : String) (adminNotes : Option String)
    (o : Payment) : Payment :=
  { o with
    orderStatus := status
    adminNotes := strOr adminNotes o.adminNotes
    shippedDate := if status = "shipped" ∧ o.shippedDate = none then some now else o.shippedDate
    deliveredDate := if status = "delivered" ∧ o.deliveredDate = none then some now else o.deliveredDate }

/-- sendOrderStatusUpdateEmail (otp.controller.js:716): attempts one customer
email for processing / shipped / delivered and returns without sending for
any other status. -/
def statusUpdateEmail (o : Payment) : List Email :=
  if o.orderStatus = "processing" ∨ o.orderStatus = "shipped" ∨ o.orderStatus = "delivered" then
    [⟨o.customerEmail, EmailKind.statusUpdate o.orderStatus⟩]
  else
    []

/-- updateOrderStatus (otp.controller.js:404): the admin AdvanceStatus
operation on one order. Rejects a status outside validStatuses with the
Invalid status 400 response; otherwise applies the field writes and attempts
the status email. -/
def updateOrderStatus (now : Int) (status : String) (adminNotes : Option String)
    (o : Payment) : Except String (Payment × List Email) :=
  if status ∈ validStatuses then
    let o2 := applyStatusUpdate now status adminNotes o
    Except.ok (o2, statusUpdateEmail o2)
  else
    Except.error "Invalid status"

/-- Exact digit-count validator of the schema, the regex test of
payment.model.js for mobile (10), pincode (6) and UTR (12). -/
def isDigits (n : Nat) (s : String) : Bool :=
  s.length == n && s.data.all (fun c => c.isDigit)

/-- The delivery-state allow-list (otp.controller.js:220 and the schema enum). -/
def allowedStates : List String := ["Andhra Pradesh", "Telangana", "Odisha"]

/-- Fixed book price (otp.controller.js:238). -/
def FIXED_BOOK_PRICE : Int := 1

/-- Fixed delivery charge (otp.controller.js:239). -/
def DELIVERY_CHARGE : Int := 34

/-- EXPECTED_TOTAL = book price + delivery charge (otp.controller.js:240). -/
def EXPECTED_TOTAL : Int := FIXED_BOOK_PRICE + DELIVERY_CHARGE

/-- The admin payment-notification address (otp.controller.js:172). -/
def ADMIN_EMAIL : String := "payment.haribookstore1@gmail.com"

/-- The request body of createOrder; an absent field is the empty string
(for string fields) or none (for amount), matching the truthiness check. -/
structure CreateOrderInput where
  customerName : String
  customerEmail : String
  mobile : String
  village : String
  district : String
  pincode : String
  state : String
  bookCode : String
  bookName : String
  utr : String
  amount : Option Int
  deriving DecidableEq, Repr

/-- The `if (!customerName || ... || !amount)` presence check of
createOrder (otp.controller.js:212); zero amount is falsy in JavaScript. -/
def missingField (inp : CreateOrderInput) : Bool :=
  inp.customerName == "" || inp.customerEmail == "" || inp.mobile == "" ||
  inp.village == "" || inp.district == "" || inp.pincode == "" ||
  inp.state == "" || inp.bookCode == "" || inp.bookName == "" ||
  inp.utr == "" || inp.amount == none || inp.amount == some 0

/-- The Mongoose schema validation run by newOrder.save()
(payment.model.js): required string fields nonempty, digit-count formats,
state enum, min bounds on price and amount, enums on the status fields. -/
def schemaValid (o : Payment) : Bool :=
  o.customerName != "" && o.customerEmail != "" &&
  isDigits 10 o.mobile &&
  o.village != "" && o.district != "" &&
  isDigits 6 o.pincode &&
  allowedStates.contains o.state &&
  o.bookCode != "" && o.bookName != "" &&
  decide (1 ≤ o.price) &&
  isDigits 12 o.utr &&
  decide (1 ≤ o.amount) &&
  o.upiId != "" &&
  ["pending", "verified", "failed"].contains o.verificationStatus &&
  validStatuses.contains o.orderStatus

/-- The new Payment document built by createOrder (otp.controller.js:259):
book name resolved from the catalog, price fixed, verification and order
status pending, schema defaults for the remaining fields. -/
def mkNewOrder (now : Int) (inp : CreateOrderInput) (book : Book) (amount : Int) : Payment :=
  { customerName := inp.customerName
    customerEmail := inp.customerEmail
    mobile := inp.mobile
    village := inp.village
    district := inp.district
    pincode := inp.pincode
    state := inp.state
    bookCode := inp.bookCode
    bookName := book.name
    price := FIXED_BOOK_PRICE
    utr := inp.utr
    amount := amount
    upiId := "7416219267@ybl"
    verificationStatus := "pending"
    orderStatus := "pending"
    adminNotes := ""
    createdAt := now
    confirmedDate := none
    shippedDate := none
    deliveredDate := none
    emailSent := false
    emailSentDate := none }

/-- The HTTP outcome of createOrder: response status and message, the
persisted document if any, and the attempted emails. -/
structure CreateResult where
  status : Nat
  message : String
  newOrder : Option Payment
  emails : List Email
  deriving DecidableEq, Repr

/-- createOrder (otp.controller.js:195): presence check, state allow-list,
book lookup, fixed-total price check, duplicate-UTR check, then save (whose
schema-validation failure is caught by the catch block and reported as 500)
followed by the two best-effort notification attempts. -/
def createOrder (now : Int) (books : List Book) (store : List Payment)
    (inp : CreateOrderInput) : CreateResult :=
  if missingField inp then
    ⟨400, "All fields are required", none, []⟩
  else if !(allowedStates.contains inp.state) then
    ⟨400, "Sorry, we only deliver to Andhra Pradesh, Telangana, and Odisha", none, []⟩
  else
    match books.find? (fun b => b.bookcode == inp.bookCode) with
    | none => ⟨404, "Book not found with the provided book code", none, []⟩
    | some book =>
      match inp.amount with
      | none => ⟨400, "All fields are required", none, []⟩
      | some amount =>
        if amount ≠ EXPECTED_TOTAL then
          ⟨400, "Price mismatch. Expected total: " ++ toString EXPECTED_TOTAL ++
                ", Received: " ++ toString amount, none, []⟩
        else if store.any (fun o => o.utr == inp.utr) then
          ⟨400, "UTR number already used. Please check your UTR number.", none, []⟩
        else
          if schemaValid (mkNewOrder now inp book amount) then
            ⟨201, "Order placed successfully! We will verify your payment and send you a confirmation email shortly.",
             some (mkNewOrder now inp book amount),
             [⟨ADMIN_EMAIL, EmailKind.adminNewOrder⟩,
              ⟨(mkNewOrder now inp book amount).customerEmail, EmailKind.customerOrderReceived⟩]⟩
          else
            ⟨500, "Failed to create order. Please try again.", none, []⟩

/-- The minimum deferral window of the email scheduler: two hours in
milliseconds (emailScheduler.service.js:23). -/
def TWO_HOURS_MS : Int := 2 * 60 * 60 * 1000

/-- The Payment.find query of checkAndSendEmails
(emailScheduler.service.js:25): createdAt at least two hours ago, emailSent
not true, orderStatus confirmed or cancelled. -/
def eligibleForEmail (now : Int) (o : Payment) : Bool :=
  decide (o.createdAt ≤ now - TWO_HOURS_MS) && !o.emailSent &&
  (o.orderStatus == "confirmed" || o.orderStatus == "cancelled")

/-- The email sendStatusEmail attempts for an order: confirmed gets the
success template, cancelled the failure template, anything else nothing. -/
def sendStatusEmailEmails (o : Payment) : List Email :=
  if o.orderStatus = "confirmed" then [⟨o.customerEmail, EmailKind.orderConfirmed⟩]
  else if o.orderStatus = "cancelled" then [⟨o.customerEmail, EmailKind.orderCancelled⟩]
  else []

/-- sendStatusEmail (emailScheduler.service.js:44): attempt the template
send, then unconditionally mark emailSent and stamp emailSentDate. The
sendOk argument records whether the underlying transporter send succeeded;
it cannot influence the result because sendOrderConfirmedEmail and
sendOrderCancelledEmail catch every transporter error internally, so control
always reaches the flag writes. -/
def sendStatusEmail (now : Int) (sendOk : Bool) (o : Payment) : Payment × List Email :=
  let emails := sendStatusEmailEmails o
  let o2 := { o with emailSent := true, emailSentDate := some now }
  (o2, emails)

/-- Processing of one store document by a sweep run: an order matched by the
query goes through sendStatusEmail, any other is untouched. -/
def sweepOrder (now : Int) (sendOk : Bool) (o : Payment) : Payment × List Email :=
  if eligibleForEmail now o then sendStatusEmail now sendOk o else (o, [])

/-- checkAndSendEmails (emailScheduler.service.js:18): query the store for
eligible orders and run sendStatusEmail on each, independently; returns the
updated store and all attempted emails. The per-order sendOk oracle says
whose transporter send succeeded. -/
def checkAndSendEmails (now : Int) (sendOk : Payment → Bool) (store : List Payment) :
    List Payment × List Email :=
  (store.map (fun o => (sweepOrder now (sendOk o) o).1),
   (store.map (fun o => (sweepOrder now (sendOk o) o).2)).flatten)

/-- A well-formed confirmed order used as a concrete test vector. -/
def sampleOrder : Payment :=
  { customerName := "Asha"
    customerEmail := "asha@example.com"
    mobile := "9876543210"
    village := "Peddapuram"
    district := "Kakinada"
    pincode := "533101"
    state := "Andhra Pradesh"
    bookCode := "B1"
    bookName := "Some Book"
    price := 1
    utr := "123456789012"
    amount := 35
    upiId := "7416219267@ybl"
    verificationStatus := "verified"
    orderStatus := "confirmed"
    adminNotes := ""
    createdAt := 0
    confirmedDate := some 5
    shippedDate := none
    deliveredDate := none
    emailSent := false
    emailSentDate := none }

/-- sampleOrder with status delivered and the delivered timestamp set. -/
def deliveredOrder : Payment :=
  { sampleOrder with orderStatus := "delivered", deliveredDate := some 50 }

/-- sampleOrder with the deferred-notification flag already set. -/
def sentOrder : Payment :=
  { sampleOrder with emailSent := true, emailSentDate := some 9000000 }

/-- A catalog containing the book the sample inputs reference. -/
def sampleBook : Book := ⟨"B1", "Some Book"⟩

/-- A fully valid creation input. -/
def goodInput : CreateOrderInput :=
  { customerName := "Ravi"
    customerEmail := "ravi@example.com"
    mobile := "9000000001"
    village := "Bhimavaram"
    district := "West Godavari"
    pincode := "534201"
    state := "Telangana"
    bookCode := "B1"
    bookName := "Some Book"
    utr := "999888777666"
    amount := some 35 }

/-- goodInput with a malformed (5-digit) mobile number. -/
def badMobileInput : CreateOrderInput := { goodInput with mobile := "12345" }

/-- goodInput with a wrong claimed amount. -/
def badAmountInput : CreateOrderInput := { goodInput with amount := some 40 }

/-- goodInput reusing the UTR of sampleOrder. -/
def dupUtrInput : CreateOrderInput := { goodInput with utr := "123456789012" }

/-- C1 counterexample: on a concrete order whose confirmedDate is already set, a later
Decide call with outcome failed clears confirmedDate back to none, so a later Decide
call does overwrite and clear a lifecycle timestamp once set. -/
theorem c1_counterexample :
    sampleOrder.confirmedDate = some 5 ∧
    (confirmOrder 100 (some "failed") none sampleOrder).1.confirmedDate = none :=
  ⟨rfl, rfl⟩

/-- C1 (amended): every Decide call overwrites confirmedDate, setting it to now when
the outcome is verified (even when already set) and clearing it to none otherwise,
while AdvanceStatus stamps shippedDate and deliveredDate only on first entry into
shipped and delivered, never overwrites them once set, and Decide leaves them
untouched. -/
theorem c1_amended (now : Int) (vs notes : Option String) (o : Payment) (st : String)
    (h : st ∈ validStatuses) :
    (confirmOrder now vs notes o).1.confirmedDate
      = (if vs = some "verified" then some now else none) ∧
    updateOrderStatus now st notes o
      = Except.ok (applyStatusUpdate now st notes o,
          statusUpdateEmail (applyStatusUpdate now st notes o)) ∧
    (o.shippedDate ≠ none → (applyStatusUpdate now st notes o).shippedDate = o.shippedDate) ∧
    (o.deliveredDate ≠ none → (applyStatusUpdate now st notes o).deliveredDate = o.deliveredDate) ∧
    (st = "shipped" → o.shippedDate = none →
      (applyStatusUpdate now st notes o).shippedDate = some now) ∧
    (st = "delivered" → o.deliveredDate = none →
      (applyStatusUpdate now st notes o).deliveredDate = some now) ∧
    (confirmOrder now vs notes o).1.shippedDate = o.shippedDate ∧
    (confirmOrder now vs notes o).1.deliveredDate = o.deliveredDate := by
  refine ⟨rfl, ?_, ?_, ?_, ?_, ?_, rfl, rfl⟩
  · simp only [updateOrderStatus, if_pos h]
  · intro hs
    simp only [applyStatusUpdate]
    exact if_neg (fun hc => hs hc.2)
  · intro hd
    simp only [applyStatusUpdate]
    exact if_neg (fun hc => hd hc.2)
  · intro hst hnone
    simp only [applyStatusUpdate]
    exact if_pos ⟨hst, hnone⟩
  · intro hst hnone
    simp only [applyStatusUpdate]
    exact if_pos ⟨hst, hnone⟩

/-- C1 witness: the amended timestamp behavior evaluated on the concrete sampleOrder
at time 100 with advance target shipped. -/
theorem c1_amended_witness :
    (confirmOrder 100 (some "verified") none sampleOrder).1.confirmedDate = some 100 ∧
    updateOrderStatus 100 "shipped" none sampleOrder
      = Except.ok (applyStatusUpdate 100 "shipped" none sampleOrder,
          statusUpdateEmail (applyStatusUpdate 100 "shipped" none sampleOrder)) ∧
    (applyStatusUpdate 100 "shipped" none sampleOrder).shippedDate = some 100 := by
  have h := c1_amended 100 (some "verified") none sampleOrder "shipped" (by decide)
  refine ⟨?_, h.2.1, h.2.2.2.2.1 rfl rfl⟩
  simpa using h.1

/-- C2 counterexample: Decide on the concrete sampleOrder with outcome verified
synchronously attempts a customer-facing email — the confirmation template sent
straight to the customer's own address. -/
theorem c2_counterexample :
    (confirmOrder 100 (some "verified") none sampleOrder).2
      = [⟨sampleOrder.customerEmail, EmailKind.orderConfirmed⟩] ∧
    sampleOrder.customerEmail = "asha@example.com" :=
  ⟨rfl, rfl⟩

/-- C2 (amended): Decide synchronously attempts exactly one customer-facing email for
the decision — the confirmation template when verified, the cancellation template
otherwise — and leaves the deferred notification flag emailSent unchanged, so the
Sweeper will later additionally dispatch the deferred decision notification. -/
theorem c2_amended (now : Int) (vs notes : Option String) (o : Payment) :
    (confirmOrder now vs notes o).2
      = [⟨o.customerEmail,
          if vs = some "verified" then EmailKind.orderConfirmed
          else EmailKind.orderCancelled⟩] ∧
    (confirmOrder now vs notes o).1.emailSent = o.emailSent ∧
    (confirmOrder now vs notes o).1.customerEmail = o.customerEmail := by
  refine ⟨?_, rfl, rfl⟩
  by_cases hv : vs = some "verified" <;> simp [confirmOrder, hv]

/-- The decision notification the sweep attempts for a decided order. -/
def decisionEmail (o : Payment) : Email :=
  ⟨o.customerEmail,
   if o.orderStatus = "confirmed" then EmailKind.orderConfirmed
   else EmailKind.orderCancelled⟩

lemma sendStatusEmailEmails_of_eligible (now : Int) (o : Payment)
    (h : eligibleForEmail now o = true) :
    sendStatusEmailEmails o = [decisionEmail o] := by
  simp only [eligibleForEmail, Bool.and_eq_true, Bool.or_eq_true, beq_iff_eq] at h
  rcases h.2 with hc | hc
  · simp [sendStatusEmailEmails, decisionEmail, hc]
  · simp [sendStatusEmailEmails, decisionEmail, hc]

lemma sweepOrder_snd (now : Int) (b : Bool) (o : Payment) :
    (sweepOrder now b o).2
      = if eligibleForEmail now o then [decisionEmail o] else [] := by
  by_cases he : eligibleForEmail now o = true
  · rw [sweepOrder, if_pos he, if_pos he]
    exact sendStatusEmailEmails_of_eligible now o he
  · rw [sweepOrder, if_neg he, if_neg he]

lemma checkAndSendEmails_snd (now : Int) (f : Payment → Bool) (store : List Payment) :
    (checkAndSendEmails now f store).2
      = (store.filter (fun o => eligibleForEmail now o)).map decisionEmail := by
  induction store with
  | nil => rfl
  | cons o t ih =>
    simp only [checkAndSendEmails, List.map_cons, List.flatten_cons] at ih ⊢
    rw [sweepOrder_snd, ih]
    by_cases he : eligibleForEmail now o = true
    · simp [List.filter_cons, he]
    · simp [List.filter_cons, he]

/-- C3: a sweep run attempts a deferred decision notification for exactly the orders
passing all three guards — orderStatus confirmed or cancelled, emailSent still false,
and at least the two-hour minimum delay elapsed measured from the order's creation
time. -/
theorem c3_sweep_exact (now : Int) (sendOk : Payment → Bool) (store : List Payment) :
    (checkAndSendEmails now sendOk store).2
      = (store.filter (fun o => eligibleForEmail now o)).map decisionEmail ∧
    ∀ o : Payment, eligibleForEmail now o = true ↔
      (TWO_HOURS_MS ≤ now - o.createdAt ∧ o.emailSent = false ∧
       (o.orderStatus = "confirmed" ∨ o.orderStatus = "cancelled")) := by
  refine ⟨checkAndSendEmails_snd now sendOk store, fun o => ?_⟩
  simp only [eligibleForEmail, Bool.and_eq_true, Bool.or_eq_true, beq_iff_eq,
    decide_eq_true_eq, Bool.not_eq_true']
  constructor
  · rintro ⟨⟨h1, h2⟩, h3⟩
    exact ⟨by omega, h2, h3⟩
  · rintro ⟨h1, h2, h3⟩
    exact ⟨⟨by omega, h2⟩, h3⟩

/-- C3 witness: a concrete sweep at time 8000000 over a two-order store attempts
exactly the decision email of the one eligible order. -/
theorem c3_witness :
    (checkAndSendEmails 8000000 (fun _ => true) [sampleOrder, sentOrder]).2
      = [decisionEmail sampleOrder] ∧
    eligibleForEmail 8000000 sampleOrder = true := by
  have h := c3_sweep_exact 8000000 (fun _ => true) [sampleOrder, sentOrder]
  constructor
  · rw [h.1]
    rfl
  · exact (h.2 sampleOrder).2 ⟨by decide, rfl, Or.inl rfl⟩

/-- C4: after each eligible order's send attempt the emailSent flag is set and the
sent time stamped regardless of whether the transporter send succeeded or threw
(the template senders swallow every error before the flag writes), and the whole
sweep result is independent of which sends fail, so one order's failure never stops
the remaining orders from being processed. -/
theorem c4_flag_regardless (now : Int) (sendOk : Payment → Bool) (store : List Payment)
    (o : Payment) (b : Bool) :
    (sendStatusEmail now b o).1.emailSent = true ∧
    (sendStatusEmail now b o).1.emailSentDate = some now ∧
    sendStatusEmail now b o = sendStatusEmail now true o ∧
    checkAndSendEmails now sendOk store = checkAndSendEmails now (fun _ => true) store :=
  ⟨rfl, rfl, rfl, rfl⟩

lemma eligible_after_sweepOrder (now : Int) (b : Bool) (o : Payment) :
    eligibleForEmail now ((sweepOrder now b o).1) = false := by
  by_cases he : eligibleForEmail now o = true
  · rw [sweepOrder, if_pos he]
    simp [eligibleForEmail, sendStatusEmail]
  · rw [sweepOrder, if_neg he]
    exact Bool.eq_false_iff.mpr he

/-- C5: sweeper idempotence — an immediately repeated sweep attempts no email at all
(every order the first run marked now fails the emailSent guard and the rest were
already ineligible and untouched), and no operation resets emailSent from true back
to false: Decide, AdvanceStatus and the sweep itself all preserve a true flag. -/
theorem c5_sweep_idempotent (now : Int) (f g : Payment → Bool) (store : List Payment)
    (vs notes : Option String) (st : String) (o : Payment) (b : Bool) :
    (checkAndSendEmails now g (checkAndSendEmails now f store).1).2 = [] ∧
    (o.emailSent = true → (confirmOrder now vs notes o).1.emailSent = true) ∧
    (o.emailSent = true → ∀ o2 es, updateOrderStatus now st notes o = Except.ok (o2, es) →
      o2.emailSent = true) ∧
    (o.emailSent = true → (sweepOrder now b o).1.emailSent = true) := by
  refine ⟨?_, fun hs => hs, ?_, ?_⟩
  · rw [checkAndSendEmails_snd, List.map_eq_nil_iff, List.filter_eq_nil_iff]
    intro a ha
    simp only [checkAndSendEmails, List.mem_map] at ha
    obtain ⟨o1, _, rfl⟩ := ha
    simp [eligible_after_sweepOrder]
  · intro hs o2 es h
    rw [updateOrderStatus] at h
    by_cases hv : st ∈ validStatuses
    · rw [if_pos hv] at h
      cases h
      exact hs
    · rw [if_neg hv] at h
      cases h
  · intro hs
    rw [sweepOrder]
    by_cases he : eligibleForEmail now o = true
    · rw [if_pos he]
      rfl
    · rw [if_neg he]
      exact hs

/-- C5 witness: the double sweep on a concrete singleton store attempts nothing the
second time, and a true emailSent flag survives a concrete Decide call. -/
theorem c5_witness :
    (checkAndSendEmails 8000000 (fun _ => true)
        (checkAndSendEmails 8000000 (fun _ => true) [sampleOrder]).1).2 = [] ∧
    (confirmOrder 8000000 (some "verified") none sentOrder).1.emailSent = true := by
  have h := c5_sweep_idempotent 8000000 (fun _ => true) (fun _ => true) [sampleOrder]
      (some "verified") none "shipped" sentOrder true
  exact ⟨h.1, h.2.1 rfl⟩

/-- C6 counterexample: AdvanceStatus accepts the status pending — a value outside
{processing, shipped, delivered} — without any ValidationError and moves a delivered
order back to pending, so delivered is not terminal and the validation claim fails. -/
theorem c6_counterexample :
    deliveredOrder.orderStatus = "delivered" ∧
    updateOrderStatus 100 "pending" none deliveredOrder
      = Except.ok (applyStatusUpdate 100 "pending" none deliveredOrder, []) ∧
    (applyStatusUpdate 100 "pending" none deliveredOrder).orderStatus = "pending" :=
  ⟨rfl, rfl, rfl⟩

/-- C6 (amended): AdvanceStatus fails with the Invalid-status ValidationError exactly
for a newStatus outside {pending, confirmed, processing, shipped, delivered,
cancelled}; every status inside that list is accepted and becomes the order's status
whatever its current status, so delivered and cancelled are not terminal states. -/
theorem c6_amended (now : Int) (st : String) (notes : Option String) (o : Payment) :
    (st ∉ validStatuses → updateOrderStatus now st notes o = Except.error "Invalid status") ∧
    (st ∈ validStatuses →
      updateOrderStatus now st notes o
        = Except.ok (applyStatusUpdate now st notes o,
            statusUpdateEmail (applyStatusUpdate now st notes o)) ∧
      (applyStatusUpdate now st notes o).orderStatus = st) := by
  constructor
  · intro hn
    rw [updateOrderStatus, if_neg hn]
  · intro hy
    exact ⟨by rw [updateOrderStatus, if_pos hy], rfl⟩

/-- C6 witness: the amended AdvanceStatus behavior at the concrete status values
refunded (rejected) and cancelled applied to a delivered order (accepted). -/
theorem c6_amended_witness :
    updateOrderStatus 0 "refunded" none sampleOrder = Except.error "Invalid status" ∧
    updateOrderStatus 0 "cancelled" none deliveredOrder
      = Except.ok (applyStatusUpdate 0 "cancelled" none deliveredOrder,
          statusUpdateEmail (applyStatusUpdate 0 "cancelled" none deliveredOrder)) ∧
    (applyStatusUpdate 0 "cancelled" none deliveredOrder).orderStatus = "cancelled" := by
  have h1 := c6_amended 0 "refunded" none sampleOrder
  have h2 := c6_amended 0 "cancelled" none deliveredOrder
  exact ⟨h1.1 (by decide), (h2.2 (by decide)).1, (h2.2 (by decide)).2⟩

lemma schemaValid_digits (o : Payment) (h : schemaValid o = true) :
    isDigits 10 o.mobile = true ∧ isDigits 6 o.pincode = true ∧
    isDigits 12 o.utr = true := by
  simp only [schemaValid, Bool.and_eq_true] at h
  exact ⟨by tauto, by tauto, by tauto⟩

lemma schemaValid_mkNewOrder_false (now : Int) (inp : CreateOrderInput) (book : Book)
    (amount : Int)
    (hbad : ¬ (isDigits 10 inp.mobile = true ∧ isDigits 6 inp.pincode = true ∧
               isDigits 12 inp.utr = true)) :
    schemaValid (mkNewOrder now inp book amount) = false := by
  cases hh : schemaValid (mkNewOrder now inp book amount) with
  | false => rfl
  | true => exact absurd (schemaValid_digits _ hh) hbad

/-- C7 counterexample: a creation input with a 5-digit mobile that passes every
controller-level check reaches save, whose schema validation fails, and the catch
block answers 500 — not the claimed 400 — while persisting nothing. -/
theorem c7_counterexample :
    (createOrder 0 [sampleBook] [] badMobileInput).status = 500 ∧
    (createOrder 0 [sampleBook] [] badMobileInput).newOrder = none :=
  ⟨rfl, rfl⟩

/-- C7 (amended): whenever the mobile is not exactly 10 digits, the pincode not
exactly 6 digits, or the UTR not exactly 12 digits, CreateOrder persists no order and
never answers 201; when every controller-level check passes, the failure comes from
the save-time schema validation and is reported as a 500 response, not a 400. -/
theorem c7_amended (now : Int) (books : List Book) (store : List Payment)
    (inp : CreateOrderInput)
    (hbad : ¬ (isDigits 10 inp.mobile = true ∧ isDigits 6 inp.pincode = true ∧
               isDigits 12 inp.utr = true)) :
    (createOrder now books store inp).newOrder = none ∧
    (createOrder now books store inp).status ≠ 201 ∧
    (missingField inp = false →
     allowedStates.contains inp.state = true →
     (books.find? (fun b => b.bookcode == inp.bookCode)).isSome = true →
     inp.amount = some EXPECTED_TOTAL →
     store.any (fun o => o.utr == inp.utr) = false →
     (createOrder now books store inp).status = 500) := by
  by_cases hm : missingField inp
  · simp [createOrder, hm]
  · have hm2 : missingField inp = false := Bool.eq_false_iff.mpr hm
    by_cases hst : allowedStates.contains inp.state
    · have hmem : inp.state ∈ allowedStates := by simpa using hst
      cases hfind : books.find? (fun b => b.bookcode == inp.bookCode) with
      | none => simp [createOrder, hm2, hst, hmem, hfind]
      | some book =>
        cases ham : inp.amount with
        | none => simp [createOrder, hm2, hst, hmem, hfind, ham]
        | some a =>
          by_cases haeq : a = EXPECTED_TOTAL
          · subst haeq
            by_cases hdup : store.any (fun o => o.utr == inp.utr)
            · have hdup3 : ∃ x ∈ store, x.utr = inp.utr := by simpa using hdup
              simp [createOrder, hm2, hst, hmem, hfind, ham, hdup3]
            · have hdup2 : store.any (fun o => o.utr == inp.utr) = false :=
                Bool.eq_false_iff.mpr hdup
              have hdup3 : ¬ ∃ x ∈ store, x.utr = inp.utr := by simpa using hdup2
              have hsv := schemaValid_mkNewOrder_false now inp book EXPECTED_TOTAL hbad
              simp [createOrder, hm2, hst, hmem, hfind, ham, hdup3, hsv]
          · simp [createOrder, hm2, hst, hmem, hfind, ham, haeq]
    · have hst2 : allowedStates.contains inp.state = false := Bool.eq_false_iff.mpr hst
      have hnmem : inp.state ∉ allowedStates := by simpa using hst2
      simp [createOrder, hm2, hst2, hnmem]

/-- C7 witness: the amended behavior evaluated at the concrete bad-mobile input —
no order persisted and a 500 response. -/
theorem c7_amended_witness :
    (createOrder 0 [sampleBook] [] badMobileInput).newOrder = none ∧
    (createOrder 0 [sampleBook] [] badMobileInput).status = 500 := by
  have h := c7_amended 0 [sampleBook] [] badMobileInput (by decide)
  exact ⟨h.1, h.2.2 (by decide) (by decide) (by decide) (by decide) (by decide)⟩

lemma createOrder_newOrder_some (now : Int) (books : List Book) (store : List Payment)
    (inp : CreateOrderInput) (o : Payment)
    (h : (createOrder now books store inp).newOrder = some o) :
    ∃ book, books.find? (fun b => b.bookcode == inp.bookCode) = some book ∧
      inp.amount = some EXPECTED_TOTAL ∧
      o = mkNewOrder now inp book EXPECTED_TOTAL ∧
      store.any (fun x => x.utr == inp.utr) = false ∧
      schemaValid o = true := by
  unfold createOrder at h
  split at h
  next => simp at h
  next hm =>
    split at h
    next => simp at h
    next hst =>
      split at h
      next => simp at h
      next book hfind =>
        split at h
        next => simp at h
        next a ham =>
          split at h
          next => simp at h
          next hane =>
            have ha : a = EXPECTED_TOTAL := not_not.mp hane
            subst ha
            split at h
            next => simp at h
            next hdup =>
              split at h
              next hsv =>
                simp only [Option.some.injEq] at h
                subst h
                exact ⟨book, hfind, ham, rfl, Bool.eq_false_iff.mpr hdup, hsv⟩
              next => simp at h

lemma createOrder_201_isSome (now : Int) (books : List Book) (store : List Payment)
    (inp : CreateOrderInput) :
    (createOrder now books store inp).status = 201 →
    (createOrder now books store inp).newOrder.isSome = true := by
  simp only [createOrder]
  repeat' split
  all_goals intro h
  all_goals simp_all

/-- C8: any creation input whose claimed amount differs from the fixed expected
total persists nothing and never answers 201 — with the price-mismatch 400
rejection whenever the earlier presence, state and book checks pass — and every
successfully persisted order stores the fixed book price 1 and payment amount 35,
the book price plus the delivery charge. -/
theorem c8_price_mismatch (now : Int) (books : List Book) (store : List Payment)
    (inp : CreateOrderInput) :
    (inp.amount ≠ some EXPECTED_TOTAL →
      (createOrder now books store inp).newOrder = none ∧
      (createOrder now books store inp).status ≠ 201) ∧
    (∀ a, inp.amount = some a → a ≠ EXPECTED_TOTAL →
      missingField inp = false →
      allowedStates.contains inp.state = true →
      (books.find? (fun b => b.bookcode == inp.bookCode)).isSome = true →
      createOrder now books store inp
        = ⟨400, "Price mismatch. Expected total: " ++ toString EXPECTED_TOTAL ++
               ", Received: " ++ toString a, none, []⟩) ∧
    (∀ o, (createOrder now books store inp).newOrder = some o →
      o.price = FIXED_BOOK_PRICE ∧ o.amount = EXPECTED_TOTAL) ∧
    FIXED_BOOK_PRICE = 1 ∧ EXPECTED_TOTAL = 35 := by
  refine ⟨?_, ?_, ?_, rfl, by decide⟩
  · intro hne
    constructor
    · cases hno : (createOrder now books store inp).newOrder with
      | none => rfl
      | some o =>
        obtain ⟨book, -, ham, -, -, -⟩ := createOrder_newOrder_some now books store inp o hno
        exact absurd ham hne
    · intro h201
      obtain ⟨o, hno⟩ :=
        Option.isSome_iff_exists.mp (createOrder_201_isSome now books store inp h201)
      obtain ⟨book, -, ham, -, -, -⟩ := createOrder_newOrder_some now books store inp o hno
      exact hne ham
  · intro a ham hane hm hst hfind
    have hmem : inp.state ∈ allowedStates := by simpa using hst
    obtain ⟨book, hfind2⟩ := Option.isSome_iff_exists.mp hfind
    simp [createOrder, hm, hmem, hfind2, ham, hane]
  · intro o hno
    obtain ⟨book, -, -, heq, -, -⟩ := createOrder_newOrder_some now books store inp o hno
    subst heq
    exact ⟨rfl, rfl⟩

/-- C8 witness: a concrete wrong-amount input persists nothing, and the concrete
successful creation stores the fixed price and total. -/
theorem c8_witness :
    (createOrder 0 [sampleBook] [] badAmountInput).newOrder = none ∧
    (mkNewOrder 0 goodInput sampleBook EXPECTED_TOTAL).price = FIXED_BOOK_PRICE ∧
    (mkNewOrder 0 goodInput sampleBook EXPECTED_TOTAL).amount = EXPECTED_TOTAL := by
  have h1 := c8_price_mismatch 0 [sampleBook] [] badAmountInput
  have h2 := c8_price_mismatch 0 [sampleBook] [] goodInput
  have hno : (createOrder 0 [sampleBook] [] goodInput).newOrder
      = some (mkNewOrder 0 goodInput sampleBook EXPECTED_TOTAL) := by rfl
  exact ⟨(h1.1 (by decide)).1, (h2.2.2.1 _ hno).1, (h2.2.2.1 _ hno).2⟩

lemma sweepOrder_utr (now : Int) (b : Bool) (o : Payment) :
    (sweepOrder now b o).1.utr = o.utr := by
  rw [sweepOrder]
  by_cases he : eligibleForEmail now o = true
  · rw [if_pos he]
    rfl
  · rw [if_neg he]

/-- C9: a creation input whose UTR matches an already stored order fails with the
duplicate-UTR 400 and persists nothing; a successful creation preserves pairwise
distinct UTRs because it was checked against the whole store, and Decide,
AdvanceStatus and the sweep never rewrite a stored UTR nor add an order — so no
reachable store state holds two orders with one UTR. -/
theorem c9_utr_unique (now : Int) (books : List Book) (store : List Payment)
    (inp : CreateOrderInput) (vs notes : Option String) (st : String) (o : Payment)
    (sendOk : Payment → Bool) (b : Bool) :
    (store.any (fun x => x.utr == inp.utr) = true →
      (createOrder now books store inp).newOrder = none ∧
      (createOrder now books store inp).status ≠ 201) ∧
    (∀ o2, (createOrder now books store inp).newOrder = some o2 →
      store.Pairwise (fun a c => a.utr ≠ c.utr) →
      (store ++ [o2]).Pairwise (fun a c => a.utr ≠ c.utr)) ∧
    (confirmOrder now vs notes o).1.utr = o.utr ∧
    (∀ o2 es, updateOrderStatus now st notes o = Except.ok (o2, es) → o2.utr = o.utr) ∧
    (sweepOrder now b o).1.utr = o.utr ∧
    (checkAndSendEmails now sendOk store).1.map (fun x => x.utr)
      = store.map (fun x => x.utr) := by
  refine ⟨?_, ?_, rfl, ?_, sweepOrder_utr now b o, ?_⟩
  · intro hdup
    constructor
    · cases hno : (createOrder now books store inp).newOrder with
      | none => rfl
      | some o2 =>
        obtain ⟨book, -, -, -, hany, -⟩ :=
          createOrder_newOrder_some now books store inp o2 hno
        rw [hdup] at hany
        cases hany
    · intro h201
      obtain ⟨o2, hno⟩ :=
        Option.isSome_iff_exists.mp (createOrder_201_isSome now books store inp h201)
      obtain ⟨book, -, -, -, hany, -⟩ :=
        createOrder_newOrder_some now books store inp o2 hno
      rw [hdup] at hany
      cases hany
  · intro o2 hno hpw
    obtain ⟨book, -, -, heq, hany, -⟩ :=
      createOrder_newOrder_some now books store inp o2 hno
    have hall : ∀ x ∈ store, ¬ x.utr = inp.utr := by simpa using hany
    rw [List.pairwise_append]
    refine ⟨hpw, List.pairwise_singleton _ _, ?_⟩
    intro a ha c hc
    rw [List.mem_singleton] at hc
    subst hc
    subst heq
    exact hall a ha
  · intro o2 es h
    rw [updateOrderStatus] at h
    by_cases hv : st ∈ validStatuses
    · rw [if_pos hv] at h
      cases h
      rfl
    · rw [if_neg hv] at h
      cases h
  · simp only [checkAndSendEmails, List.map_map]
    exact List.map_congr_left (fun a _ => sweepOrder_utr now (sendOk a) a)

/-- C9 witness: the concrete duplicate-UTR input against a one-order store persists
nothing, and a concrete Decide call keeps the stored UTR. -/
theorem c9_witness :
    (createOrder 0 [sampleBook] [sampleOrder] dupUtrInput).newOrder = none ∧
    (confirmOrder 0 (some "verified") none sampleOrder).1.utr = sampleOrder.utr := by
  have h := c9_utr_unique 0 [sampleBook] [sampleOrder] dupUtrInput (some "verified") none
      "shipped" sampleOrder (fun _ => true) true
  exact ⟨(h.1 (by decide)).1, h.2.2.1⟩

/-- The per-order invariant separating the absent-outcome Decide state from every
properly reachable state: a verified verification status implies a set
confirmedDate. -/
def verifiedImpliesConfirmed (o : Payment) : Prop :=
  o.verificationStatus = "verified" → o.confirmedDate ≠ none

/-- C10: Decide with the verification outcome absent from the body applies the
default, leaving payment.verificationStatus verified while setting orderStatus
cancelled, clearing confirmedDate to none and attempting the cancellation email;
every properly invoked operation — creation, Decide with an explicit verified or
failed outcome, AdvanceStatus, the sweep — preserves the invariant that a verified
order has a set confirmedDate, which the absent-outcome state violates, so no other
operation produces this divergence. -/
theorem c10_absent_outcome (now : Int) (notes : Option String) (o : Payment)
    (vs : Option String) (st : String) (books : List Book) (store : List Payment)
    (inp : CreateOrderInput) (b : Bool) :
    (confirmOrder now none notes o).1.verificationStatus = "verified" ∧
    (confirmOrder now none notes o).1.orderStatus = "cancelled" ∧
    (confirmOrder now none notes o).1.confirmedDate = none ∧
    (confirmOrder now none notes o).2 = [⟨o.customerEmail, EmailKind.orderCancelled⟩] ∧
    ¬ verifiedImpliesConfirmed (confirmOrder now none notes o).1 ∧
    (∀ o2, (createOrder now books store inp).newOrder = some o2 →
      verifiedImpliesConfirmed o2) ∧
    ((vs = some "verified" ∨ vs = some "failed") →
      verifiedImpliesConfirmed (confirmOrder now vs notes o).1) ∧
    (verifiedImpliesConfirmed o → ∀ o2 es,
      updateOrderStatus now st notes o = Except.ok (o2, es) → verifiedImpliesConfirmed o2) ∧
    (verifiedImpliesConfirmed o → verifiedImpliesConfirmed (sweepOrder now b o).1) := by
  refine ⟨rfl, rfl, rfl, rfl, ?_, ?_, ?_, ?_, ?_⟩
  · intro hinv
    exact (hinv rfl) rfl
  · intro o2 hno
    obtain ⟨book, -, -, heq, -, -⟩ := createOrder_newOrder_some now books store inp o2 hno
    subst heq
    intro hv
    have hv2 : ("pending" : String) = "verified" := hv
    exact absurd hv2 (by decide)
  · rintro (rfl | rfl)
    · intro _
      simp [confirmOrder]
    · intro hv
      simp [confirmOrder, strOr] at hv
  · intro hinv o2 es h
    rw [updateOrderStatus] at h
    by_cases hv : st ∈ validStatuses
    · rw [if_pos hv] at h
      cases h
      exact fun hvs => hinv hvs
    · rw [if_neg hv] at h
      cases h
  · intro hinv
    rw [sweepOrder]
    by_cases he : eligibleForEmail now o = true
    · rw [if_pos he]
      exact fun hvs => hinv hvs
    · rw [if_neg he]
      exact hinv

/-- C10 witness: the absent-outcome Decide state on the concrete sampleOrder, and the
invariant holding after a concrete explicit verified Decide. -/
theorem c10_witness :
    (confirmOrder 100 none none sampleOrder).1.verificationStatus = "verified" ∧
    (confirmOrder 100 none none sampleOrder).1.orderStatus = "cancelled" ∧
    (confirmOrder 100 none none sampleOrder).1.confirmedDate = none ∧
    verifiedImpliesConfirmed (confirmOrder 100 (some "verified") none sampleOrder).1 := by
  have h := c10_absent_outcome 100 none sampleOrder (some "verified") "shipped"
      [sampleBook] [] goodInput true
  exact ⟨h.1, h.2.1, h.2.2.1, h.2.2.2.2.2.2.1 (Or.inl rfl)⟩
